import Mathlib

set_option maxRecDepth 20000

/-
Verification of the KK & NIK data validation tool (src/app.py).

The development shallowly embeds the validation core of the program:
  * the six field predicates of clean_data (is_valid_kk_no, is_valid_nik,
    is_valid_custname, is_valid_jenis_kelamin, is_valid_tempat_lahir,
    is_valid_date),
  * the diagnostic (Check_Desc) synthesis and the messy/clean partition,
  * the city reference list construction (the two loader paths), and
  * the summary statistics of generate_summary_excel.

Machine-level Python behaviours that the code relies on are modelled
explicitly: str.isdigit, slicing s[-4:], str(x), datetime.strptime with
format %d/%m/%Y (modelled after the regex CPython compiles for it),
str.replace (all occurrences), str.upper, str.strip, and division by zero
as an Option failure.  Fallible code (a TypeError raised by x[-4:] on a
non-string, ZeroDivisionError in the summary) is modelled with Option.
-/

namespace DataKK

/-- Calendar date as a year/month/day triple.  Models datetime.date and
a pd.Timestamp at midnight, which is the only shape the ingestion
pipeline produces (pd.to_datetime with format %d/%m/%Y). -/
structure Date where
  year : Nat
  month : Nat
  day : Nat
deriving DecidableEq

/-- The universe of cell values a column holds in this pipeline: strings,
Python ints, timestamps (pd.Timestamp) and float NaN. -/
inductive Value where
  | str (s : String)
  | int (n : Int)
  | ts (d : Date)
  | nan
deriving DecidableEq

/-- One input row, holding the six required columns of df_req. -/
structure Row where
  kk_no : Value
  nik : Value
  custname : Value
  jenis_kelamin : Value
  tempat_lahir : Value
  tanggal_lahir : Value
deriving DecidableEq

/-- Python str.isdigit (ASCII fragment): nonempty and all decimal digits. -/
def pyIsdigit (s : String) : Bool :=
  !s.data.isEmpty && s.data.all Char.isDigit

/-- Python str(b) for a bool. -/
def pyBoolStr (b : Bool) : String :=
  if b then "True" else "False"

/-- Pad a numeral with leading zeros to width 2 (timestamp rendering). -/
def pad2 (n : Nat) : String :=
  if n < 10 then "0" ++ toString n else toString n

/-- Pad a numeral with leading zeros to width 4 (timestamp rendering). -/
def pad4 (n : Nat) : String :=
  if n < 10 then "000" ++ toString n
  else if n < 100 then "00" ++ toString n
  else if n < 1000 then "0" ++ toString n
  else toString n

/-- Python str(x) for a pd.Timestamp at midnight: YYYY-MM-DD 00:00:00. -/
def tsStr (d : Date) : String :=
  pad4 d.year ++ "-" ++ pad2 d.month ++ "-" ++ pad2 d.day ++ " 00:00:00"

/-- Python str(x) on the value universe. -/
def pyStr : Value → String
  | .str s => s
  | .int n => toString n
  | .ts d => tsStr d
  | .nan => "nan"

/-- Python slicing s[-4:] on a string: the last four characters (the whole
string when it is shorter than four characters). -/
def pyTakeLast (n : Nat) (s : String) : String :=
  ⟨s.data.drop (s.data.length - n)⟩

/-- Python x[-4:] on an arbitrary value: slicing raises TypeError on a
non-string (ints, timestamps and floats are not subscriptable), modelled
as none. -/
def pySliceLast4 : Value → Option String
  | .str s => some (pyTakeLast 4 s)
  | _ => none

/-- Python str.upper (ASCII fragment). -/
def pyUpper (s : String) : String :=
  ⟨s.data.map Char.toUpper⟩

/-- Python str.strip: drop surrounding whitespace. -/
def pyStrip (s : String) : String :=
  ⟨((s.data.dropWhile Char.isWhitespace).reverse.dropWhile Char.isWhitespace).reverse⟩

/-- Test whether the first list is a prefix of the second. -/
def chStarts : List Char → List Char → Bool
  | [], _ => true
  | _ :: _, [] => false
  | a :: as, b :: bs => a == b && chStarts as bs

/-- Test whether the first list occurs as a contiguous sublist of the
second (substring search; models the pattern lookup of pandas
Series.str.contains on the literal markers used by the program). -/
def chFind (pat : List Char) : List Char → Bool
  | [] => chStarts pat []
  | c :: rest => chStarts pat (c :: rest) || chFind pat rest

/-- Substring containment on strings. -/
def containsSubstr (s pat : String) : Bool :=
  chFind pat.data s.data

/-- Fuel-driven worker for Python str.replace: replace every
non-overlapping occurrence of pat, scanning left to right.  The fuel is
instantiated with the length of the subject string, which suffices for a
nonempty pattern. -/
def pyReplaceAux (pat rep : List Char) : Nat → List Char → List Char
  | _, [] => []
  | 0, s => s
  | n + 1, c :: rest =>
    if chStarts pat (c :: rest) then
      rep ++ pyReplaceAux pat rep n ((c :: rest).drop pat.length)
    else
      c :: pyReplaceAux pat rep n rest

/-- Python str.replace(pat, rep) for a nonempty pattern: every occurrence
is replaced, not only the first. -/
def pyReplace (s pat rep : String) : String :=
  ⟨pyReplaceAux pat.data rep.data s.data.length s.data⟩

/-! Predicates of clean_data (src/app.py lines 27-60). -/

/-- Source: is_valid_kk_no, app.py line 27.  isinstance(kk_no, str) and
kk_no.isdigit() and len(kk_no) == 16 and kk_no[-4:] != '0000'. -/
def is_valid_kk_no : Value → Bool
  | .str s => pyIsdigit s && s.length == 16 && pyTakeLast 4 s != "0000"
  | _ => false

/-- Source: is_valid_nik, app.py line 30; textually the same rule as
is_valid_kk_no. -/
def is_valid_nik : Value → Bool
  | .str s => pyIsdigit s && s.length == 16 && pyTakeLast 4 s != "0000"
  | _ => false

/-- Source: is_valid_custname, app.py line 33.  isinstance(custname, str)
and not any(c.isdigit() for c in custname). -/
def is_valid_custname : Value → Bool
  | .str s => !(s.data.any Char.isDigit)
  | _ => false

/-- Source: is_valid_jenis_kelamin, app.py line 37.  Membership of the
raw value in the four-element vocabulary list. -/
def is_valid_jenis_kelamin (v : Value) : Bool :=
  v == .str "LAKI-LAKI" || v == .str "LAKI - LAKI" ||
  v == .str "LAKI LAKI" || v == .str "PEREMPUAN"

/-- Source: is_valid_tempat_lahir, app.py line 40.  isinstance(str) and
tempat_lahir.upper() in kota_indonesia (list membership). -/
def is_valid_tempat_lahir (kota : List String) : Value → Bool
  | .str s => kota.contains (pyUpper s)
  | _ => false

/-- Gregorian leap year, as in Python datetime. -/
def isLeapYear (y : Nat) : Bool :=
  y % 4 == 0 && (y % 100 != 0 || y % 400 == 0)

/-- Number of days of month m of year y (months 1..12). -/
def daysInMonth (y m : Nat) : Nat :=
  if m == 2 then (if isLeapYear y then 29 else 28)
  else if m == 4 || m == 6 || m == 9 || m == 11 then 30
  else 31

/-- Split a character list on the slash separator. -/
def splitSlash : List Char → List (List Char)
  | [] => [[]]
  | c :: rest =>
    match splitSlash rest with
    | [] => [[c]]
    | h :: t => if c == '/' then [] :: h :: t else (c :: h) :: t

/-- Numeric value of a digit list. -/
def digitsVal (l : List Char) : Nat :=
  l.foldl (fun a c => a * 10 + (c.toNat - '0'.toNat)) 0

/-- Day field of strptime %d.  CPython compiles %d to the regex
3[0-1] | [1-2]\d | 0[1-9] | [1-9] | space[1-9]: one or two digits with
value 1..31, or a single space followed by one digit 1..9. -/
def parseDayField : List Char → Option Nat
  | [c] => if c.isDigit && c != '0' then some (digitsVal [c]) else none
  | [a, b] =>
    if a == ' ' then
      (if b.isDigit && b != '0' then some (digitsVal [b]) else none)
    else if a.isDigit && b.isDigit then
      (let v := digitsVal [a, b]; if 1 ≤ v && v ≤ 31 then some v else none)
    else none
  | _ => none

/-- Month field of strptime %m: regex 1[0-2] | 0[1-9] | [1-9], that is
one or two digits with value 1..12. -/
def parseMonthField : List Char → Option Nat
  | [c] => if c.isDigit && c != '0' then some (digitsVal [c]) else none
  | [a, b] =>
    if a.isDigit && b.isDigit then
      (let v := digitsVal [a, b]; if 1 ≤ v && v ≤ 12 then some v else none)
    else none
  | _ => none

/-- Year field of strptime %Y: regex of exactly four digits. -/
def parseYearField : List Char → Option Nat
  | [a, b, c, d] =>
    if a.isDigit && b.isDigit && c.isDigit && d.isDigit then
      some (digitsVal [a, b, c, d])
    else none
  | _ => none

/-- Model of datetime.strptime(s, '%d/%m/%Y'): the compiled regex must
match the whole string, and the datetime constructor then rejects year 0
and a day beyond the length of the month. -/
def strptimeDMY (s : String) : Option Date :=
  match splitSlash s.data with
  | [df, mf, yf] =>
    match parseDayField df, parseMonthField mf, parseYearField yf with
    | some d, some m, some y =>
      if 1 ≤ y && d ≤ daysInMonth y m then some ⟨y, m, d⟩ else none
    | _, _, _ => none
  | _ => none

/-- Lexicographic date order, as comparison of datetime.date values. -/
def dateLe (a b : Date) : Bool :=
  Nat.blt a.year b.year ||
  (a.year == b.year &&
    (Nat.blt a.month b.month ||
      (a.month == b.month && Nat.ble a.day b.day)))

/-- Source: is_valid_date, app.py line 44.  A string must parse with
strptime %d/%m/%Y and denote a date at most today; a pd.Timestamp must be
at most today; every other type is invalid. -/
def is_valid_date (today : Date) : Value → Bool
  | .str s =>
    match strptimeDMY s with
    | some d => dateLe d today
    | none => false
  | .ts d => dateLe d today
  | _ => false

/-! Diagnostic synthesis and the messy/clean partition
(clean_data, src/app.py lines 62-101). -/

/-- Diagnostic clause of app.py lines 76-81 for the two identifier
fields (field is KK_NO or NIK):
Invalid field (length: len(str(x)), digits only: str(x).isdigit(),
last_digits: x[-4:]);  -- none models the TypeError raised by x[-4:]
when the cell is not a string. -/
def idBody (field : String) (x : Value) (l4 : String) : String :=
  "Invalid " ++ field ++ " (" ++ "length: " ++ toString (pyStr x).length ++
  ", " ++ "digits only: " ++ pyBoolStr (pyIsdigit (pyStr x)) ++
  ", " ++ "last_digits: " ++ l4 ++ "); "

/-- The identifier clause with the slice result filled in; none models
the raised TypeError. -/
def idClause (field : String) (x : Value) : Option String :=
  (pySliceLast4 x).map (idBody field x)

/-- Diagnostic clause of app.py line 83. -/
def custnameClause (x : Value) : String :=
  "Invalid CUSTNAME (contains special characters or digits: " ++ pyStr x ++ "); "

/-- Diagnostic clause of app.py line 86. -/
def jenisClause (x : Value) : String :=
  "Invalid JENIS_KELAMIN (value: " ++ pyStr x ++ "); "

/-- Diagnostic clause of app.py line 89. -/
def tempatClause (x : Value) : String :=
  "Invalid TEMPAT_LAHIR (value: " ++ pyStr x ++ "); "

/-- Diagnostic clause of app.py line 92. -/
def tanggalClause (x : Value) : String :=
  "Invalid TANGGAL_LAHIR (value: " ++ pyStr x ++ ", expected format DD/MM/YYYY); "

/-- Check_Desc of one row: the clause of every failing predicate,
appended in the fixed order KK_NO, NIK, CUSTNAME, JENIS_KELAMIN,
TEMPAT_LAHIR, TANGGAL_LAHIR (app.py lines 63 and 76-93); none when a
failing identifier cell is not a string and its clause raises. -/
def rowDesc (today : Date) (kota : List String) (r : Row) : Option String :=
  (if is_valid_kk_no r.kk_no then some "" else idClause "KK_NO" r.kk_no).bind fun c1 =>
  (if is_valid_nik r.nik then some "" else idClause "NIK" r.nik).map fun c2 =>
    c1 ++ c2 ++
    (if is_valid_custname r.custname then "" else custnameClause r.custname) ++
    (if is_valid_jenis_kelamin r.jenis_kelamin then "" else jenisClause r.jenis_kelamin) ++
    (if is_valid_tempat_lahir kota r.tempat_lahir then "" else tempatClause r.tempat_lahir) ++
    (if is_valid_date today r.tanggal_lahir then "" else tanggalClause r.tanggal_lahir)

/-- Conjunction of the six predicates on one row; the clean_df filter of
app.py line 73. -/
def allValid (today : Date) (kota : List String) (r : Row) : Bool :=
  is_valid_kk_no r.kk_no && is_valid_nik r.nik &&
  is_valid_custname r.custname && is_valid_jenis_kelamin r.jenis_kelamin &&
  is_valid_tempat_lahir kota r.tempat_lahir && is_valid_date today r.tanggal_lahir

/-- Compute the Check_Desc column row by row, propagating the first
raised TypeError as none. -/
def mapDescs (today : Date) (kota : List String) : List Row → Option (List (Row × String))
  | [] => some []
  | r :: rs =>
    (rowDesc today kota r).bind fun d =>
    (mapDescs today kota rs).map fun t => (r, d) :: t

/-- Source: clean_data, app.py lines 25-101.  Returns the messy rows
(those whose Check_Desc is nonempty, together with that column) and the
clean rows (those passing all six predicates, Check_Desc dropped); none
when a diagnostic lambda raises. -/
def clean_data (today : Date) (kota : List String) (rows : List Row) :
    Option (List (Row × String) × List Row) :=
  (mapDescs today kota rows).map fun pairs =>
    (pairs.filter (fun p => p.2 != ""), rows.filter (allValid today kota))

/-! City reference list construction (src/app.py lines 274-284). -/

/-- Loader path for a CSV with a CITY_DESC column (app.py lines 279-281):
chained str.replace of the three prefixes (each replaces every
occurrence), then str.upper.  No whitespace stripping on this path. -/
def kota_from_city_desc (l : List String) : List String :=
  l.map fun s =>
    pyUpper (pyReplace (pyReplace (pyReplace s "Kota " "") "Kabupaten " "") "Kab " "")

/-- Loader path for an unlabeled list (app.py line 284):
city.strip().upper() on the first column.  No prefix removal on this
path. -/
def kota_from_first_column (l : List String) : List String :=
  l.map fun s => pyUpper (pyStrip s)

/-! Summary statistics (generate_summary_excel, src/app.py lines 103-130). -/

/-- Number of messy rows whose Check_Desc contains the marker as a
substring (pandas Series.str.contains on a literal pattern,
app.py lines 114-119). -/
def countMarker (messy : List (Row × String)) (marker : String) : Nat :=
  (messy.filter fun p => containsSubstr p.2 marker).length

def invalid_kk (messy : List (Row × String)) : Nat := countMarker messy "Invalid KK_NO"
def invalid_nik (messy : List (Row × String)) : Nat := countMarker messy "Invalid NIK"
def invalid_name (messy : List (Row × String)) : Nat := countMarker messy "Invalid CUSTNAME"
def invalid_gender (messy : List (Row × String)) : Nat := countMarker messy "Invalid JENIS_KELAMIN"
def invalid_places (messy : List (Row × String)) : Nat := countMarker messy "Invalid TEMPAT_LAHIR"
def invalid_date (messy : List (Row × String)) : Nat := countMarker messy "Invalid TANGGAL_LAHIR"

/-- Column count of messy_df: the six required data columns plus
Check_Desc (app.py line 111). -/
def num_cols : Nat := 6 + 1

/-- len_param = num_cols - 1 (app.py line 112). -/
def len_param : Nat := num_cols - 1

/-- total_invalid = len(messy_df) * len_param (app.py line 121). -/
def total_invalid (messy : List (Row × String)) : Nat :=
  messy.length * len_param

/-- messy_invalid: sum of the six per-field counts (app.py line 122). -/
def messy_invalid (messy : List (Row × String)) : Nat :=
  invalid_kk messy + invalid_nik messy + invalid_name messy +
  invalid_gender messy + invalid_places messy + invalid_date messy

/-- clean_invalid = total_invalid - messy_invalid (app.py line 123),
over the integers as in Python. -/
def clean_invalid (messy : List (Row × String)) : Int :=
  (total_invalid messy : Int) - (messy_invalid messy : Int)

/-- Python division, with ZeroDivisionError modelled as none. -/
def pyDiv (a b : ℚ) : Option ℚ :=
  if b = 0 then none else some (a / b)

/-- Python round(q, 2): round half to even at two decimal places
(modelled over the exact rationals). -/
def rnd2 (q : ℚ) : ℚ :=
  let y := q * 100
  let f : ℤ := ⌊y⌋
  let r := y - (f : ℚ)
  if r < 1 / 2 then (f : ℚ) / 100
  else if 1 / 2 < r then ((f : ℚ) + 1) / 100
  else if f % 2 = 0 then (f : ℚ) / 100 else ((f : ℚ) + 1) / 100

/-- Numeric percentage figures of the summary row (app.py line 128), in
the left-to-right evaluation order of the Python list literal; the two
literal 100.0 entries and the blank separator are kept in place (the
blank is omitted from the numeric list).  A division by zero anywhere
raises, modelled as none. -/
def summary_percentages (messy : List (Row × String)) (clean : List Row)
    (total_data : Nat) : Option (List ℚ) :=
  (pyDiv (messy.length : ℚ) (total_data : ℚ)).bind fun pm =>
  (pyDiv (clean.length : ℚ) (total_data : ℚ)).bind fun pc =>
  (pyDiv (clean_invalid messy : ℚ) (total_invalid messy : ℚ)).bind fun pci =>
  (pyDiv (messy_invalid messy : ℚ) (total_invalid messy : ℚ)).bind fun pmi =>
  (pyDiv (invalid_kk messy : ℚ) (total_invalid messy : ℚ)).bind fun pkk =>
  (pyDiv (invalid_nik messy : ℚ) (total_invalid messy : ℚ)).bind fun pnik =>
  (pyDiv (invalid_name messy : ℚ) (total_invalid messy : ℚ)).bind fun pname =>
  (pyDiv (invalid_gender messy : ℚ) (total_invalid messy : ℚ)).bind fun pgender =>
  (pyDiv (invalid_places messy : ℚ) (total_invalid messy : ℚ)).bind fun pplaces =>
  (pyDiv (invalid_date messy : ℚ) (total_invalid messy : ℚ)).map fun pdate =>
    [100, rnd2 (pm * 100), rnd2 (pc * 100), 100,
     rnd2 (pci * 100), rnd2 (pmi * 100), rnd2 (pkk * 100), rnd2 (pnik * 100),
     rnd2 (pname * 100), rnd2 (pgender * 100), rnd2 (pplaces * 100), rnd2 (pdate * 100)]

/-! Helper lemmas about substring search. -/

theorem chStarts_append {p l : List Char} (m : List Char)
    (h : chStarts p l = true) : chStarts p (l ++ m) = true := by
  induction p generalizing l with
  | nil => simp [chStarts]
  | cons a as ih =>
    cases l with
    | nil => simp [chStarts] at h
    | cons b bs =>
      simp only [chStarts, Bool.and_eq_true] at h ⊢
      exact ⟨h.1, ih h.2⟩

theorem chStarts_self_append (p m : List Char) : chStarts p (p ++ m) = true := by
  induction p with
  | nil => simp [chStarts]
  | cons a as ih => simp [chStarts, ih]

theorem chFind_append_left {p l : List Char} (m : List Char)
    (h : chFind p l = true) : chFind p (m ++ l) = true := by
  induction m with
  | nil => simpa using h
  | cons c cs ih =>
    simp only [List.cons_append, chFind, Bool.or_eq_true]
    exact Or.inr ih

theorem chFind_of_starts {p l : List Char} (m : List Char)
    (h : chStarts p l = true) : chFind p (l ++ m) = true := by
  cases l with
  | nil =>
    cases p with
    | nil => cases m <;> simp [chFind, chStarts]
    | cons a as => simp [chStarts] at h
  | cons b bs =>
    simp only [List.cons_append, chFind, Bool.or_eq_true]
    exact Or.inl (chStarts_append m h)

/-! Helper lemmas about list filtering and counting. -/

theorem filter_map_comm {α β : Type} (l : List α) (f : α → β) (p : β → Bool) :
    (l.map f).filter p = (l.filter fun a => p (f a)).map f := by
  induction l with
  | nil => rfl
  | cons a t ih =>
    by_cases h : p (f a) = true
    · simp [h, ih]
    · simp only [Bool.not_eq_true] at h
      simp [h, ih]

theorem filter_length_partition {α : Type} (l : List α) (p : α → Bool) :
    (l.filter p).length + (l.filter fun a => !(p a)).length = l.length := by
  induction l with
  | nil => rfl
  | cons a t ih =>
    cases h : p a <;> simp [List.filter_cons, h] <;> omega

theorem filter_congr_mem {α : Type} {l : List α} {p q : α → Bool}
    (h : ∀ a ∈ l, p a = q a) : l.filter p = l.filter q := by
  induction l with
  | nil => rfl
  | cons a t ih =>
    have ha := h a (by simp)
    have ht := ih fun b hb => h b (by simp [hb])
    simp only [List.filter_cons, ha, ht]

theorem count_mono {α : Type} (l : List α) (p q : α → Bool)
    (h : ∀ a ∈ l, p a = true → q a = true) :
    (l.filter p).length ≤ (l.filter q).length := by
  induction l with
  | nil => exact Nat.le_refl _
  | cons a t ih =>
    have ht := ih fun b hb => h b (by simp [hb])
    by_cases hp : p a = true
    · have hq := h a (by simp) hp
      simp only [List.filter_cons, hp, hq, if_true, List.length_cons]
      omega
    · simp only [Bool.not_eq_true] at hp
      simp only [List.filter_cons, hp, Bool.false_eq_true, if_false]
      refine Nat.le_trans ht ?_
      by_cases hq : q a = true <;> simp [hq]

/-! Structural lemmas about the diagnostic and the partition. -/

theorem idBody_length_pos (field : String) (x : Value) (l4 : String) :
    0 < (idBody field x l4).length := by
  have h8 : 0 < ("Invalid " : String).length := by decide
  simp only [idBody, String.length_append]
  omega

theorem custnameClause_length_pos (x : Value) : 0 < (custnameClause x).length := by
  have h : 0 < ("Invalid CUSTNAME (contains special characters or digits: " : String).length := by
    decide
  simp only [custnameClause, String.length_append]
  omega

theorem jenisClause_length_pos (x : Value) : 0 < (jenisClause x).length := by
  have h : 0 < ("Invalid JENIS_KELAMIN (value: " : String).length := by decide
  simp only [jenisClause, String.length_append]
  omega

theorem tempatClause_length_pos (x : Value) : 0 < (tempatClause x).length := by
  have h : 0 < ("Invalid TEMPAT_LAHIR (value: " : String).length := by decide
  simp only [tempatClause, String.length_append]
  omega

theorem tanggalClause_length_pos (x : Value) : 0 < (tanggalClause x).length := by
  have h : 0 < ("Invalid TANGGAL_LAHIR (value: " : String).length := by decide
  simp only [tanggalClause, String.length_append]
  omega

theorem rowDesc_parts {today : Date} {kota : List String} {r : Row} {d : String}
    (hd : rowDesc today kota r = some d) :
    ∃ c1 c2,
      d = c1 ++ c2 ++
        (if is_valid_custname r.custname then "" else custnameClause r.custname) ++
        (if is_valid_jenis_kelamin r.jenis_kelamin then "" else jenisClause r.jenis_kelamin) ++
        (if is_valid_tempat_lahir kota r.tempat_lahir then "" else tempatClause r.tempat_lahir) ++
        (if is_valid_date today r.tanggal_lahir then "" else tanggalClause r.tanggal_lahir) ∧
      ((is_valid_kk_no r.kk_no = true ∧ c1 = "") ∨
        (is_valid_kk_no r.kk_no = false ∧
          ∃ l4, pySliceLast4 r.kk_no = some l4 ∧ c1 = idBody "KK_NO" r.kk_no l4)) ∧
      ((is_valid_nik r.nik = true ∧ c2 = "") ∨
        (is_valid_nik r.nik = false ∧
          ∃ l4, pySliceLast4 r.nik = some l4 ∧ c2 = idBody "NIK" r.nik l4)) := by
  unfold rowDesc at hd
  cases hkk : is_valid_kk_no r.kk_no <;> cases hnik : is_valid_nik r.nik <;>
    simp only [hkk, hnik, if_true, if_false, Bool.false_eq_true, Bool.true_eq_false] at hd
  · rcases hs1 : pySliceLast4 r.kk_no with _ | l41
    · simp only [idClause, hs1, Option.map_none', Option.none_bind] at hd
      cases hd
    · simp only [idClause, hs1, Option.map_some', Option.some_bind] at hd
      rcases hs2 : pySliceLast4 r.nik with _ | l42
      · simp only [hs2, Option.map_none'] at hd
        cases hd
      · simp only [hs2, Option.map_some', Option.some.injEq] at hd
        exact ⟨_, _, hd.symm, Or.inr ⟨rfl, l41, rfl, rfl⟩, Or.inr ⟨rfl, l42, rfl, rfl⟩⟩
  · rcases hs1 : pySliceLast4 r.kk_no with _ | l41
    · simp only [idClause, hs1, Option.map_none', Option.none_bind] at hd
      cases hd
    · simp only [idClause, hs1, Option.map_some', Option.some_bind,
        Option.some.injEq] at hd
      exact ⟨_, "", hd.symm, Or.inr ⟨rfl, l41, rfl, rfl⟩, Or.inl ⟨rfl, rfl⟩⟩
  · rcases hs2 : pySliceLast4 r.nik with _ | l42
    · simp only [idClause, hs2, Option.map_none', Option.some_bind] at hd
      cases hd
    · simp only [idClause, hs2, Option.map_some', Option.some_bind,
        Option.some.injEq] at hd
      exact ⟨"", _, hd.symm, Or.inl ⟨rfl, rfl⟩, Or.inr ⟨rfl, l42, rfl, rfl⟩⟩
  · simp only [Option.some_bind, Option.map_some', Option.some.injEq] at hd
    exact ⟨"", "", hd.symm, Or.inl ⟨rfl, rfl⟩, Or.inl ⟨rfl, rfl⟩⟩

theorem rowDesc_empty_iff {today : Date} {kota : List String} {r : Row} {d : String}
    (hd : rowDesc today kota r = some d) :
    (d = "") ↔ allValid today kota r = true := by
  rcases rowDesc_parts hd with ⟨c1, c2, hdEq, h1, h2⟩
  constructor
  · intro h
    rw [hdEq] at h
    have hlen := congrArg String.length h
    simp only [String.length_append] at hlen
    have hz : ("" : String).length = 0 := rfl
    rw [hz] at hlen
    have hc1 : c1.length = 0 := by omega
    have hc2 : c2.length = 0 := by omega
    have hkk : is_valid_kk_no r.kk_no = true := by
      rcases h1 with ⟨h, _⟩ | ⟨_, l4, _, hb⟩
      · exact h
      · exact absurd hc1 (by rw [hb]; exact Nat.pos_iff_ne_zero.mp (idBody_length_pos _ _ _))
    have hnik : is_valid_nik r.nik = true := by
      rcases h2 with ⟨h, _⟩ | ⟨_, l4, _, hb⟩
      · exact h
      · exact absurd hc2 (by rw [hb]; exact Nat.pos_iff_ne_zero.mp (idBody_length_pos _ _ _))
    have hcust : is_valid_custname r.custname = true := by
      by_cases hc : is_valid_custname r.custname = true
      · exact hc
      · simp only [Bool.not_eq_true] at hc
        rw [hc] at hlen
        simp only [Bool.false_eq_true, if_false] at hlen
        have := custnameClause_length_pos r.custname
        omega
    have hjen : is_valid_jenis_kelamin r.jenis_kelamin = true := by
      by_cases hc : is_valid_jenis_kelamin r.jenis_kelamin = true
      · exact hc
      · simp only [Bool.not_eq_true] at hc
        rw [hc] at hlen
        simp only [Bool.false_eq_true, if_false] at hlen
        have := jenisClause_length_pos r.jenis_kelamin
        omega
    have htem : is_valid_tempat_lahir kota r.tempat_lahir = true := by
      by_cases hc : is_valid_tempat_lahir kota r.tempat_lahir = true
      · exact hc
      · simp only [Bool.not_eq_true] at hc
        rw [hc] at hlen
        simp only [Bool.false_eq_true, if_false] at hlen
        have := tempatClause_length_pos r.tempat_lahir
        omega
    have htan : is_valid_date today r.tanggal_lahir = true := by
      by_cases hc : is_valid_date today r.tanggal_lahir = true
      · exact hc
      · simp only [Bool.not_eq_true] at hc
        rw [hc] at hlen
        simp only [Bool.false_eq_true, if_false] at hlen
        have := tanggalClause_length_pos r.tanggal_lahir
        omega
    simp [allValid, hkk, hnik, hcust, hjen, htem, htan]
  · intro hall
    simp only [allValid, Bool.and_eq_true] at hall
    obtain ⟨⟨⟨⟨⟨hkk, hnik⟩, hcust⟩, hjen⟩, htem⟩, htan⟩ := hall
    have hc1 : c1 = "" := by
      rcases h1 with ⟨_, h⟩ | ⟨hf, _⟩
      · exact h
      · rw [hkk] at hf; cases hf
    have hc2 : c2 = "" := by
      rcases h2 with ⟨_, h⟩ | ⟨hf, _⟩
      · exact h
      · rw [hnik] at hf; cases hf
    rw [hdEq, hc1, hc2, hcust, hjen, htem, htan]
    rfl

theorem mapDescs_eq {today : Date} {kota : List String} {rows : List Row}
    {pairs : List (Row × String)} (h : mapDescs today kota rows = some pairs) :
    pairs = rows.map (fun r => (r, (rowDesc today kota r).getD "")) ∧
    ∀ r ∈ rows, (rowDesc today kota r).isSome = true := by
  induction rows generalizing pairs with
  | nil =>
    simp only [mapDescs, Option.some.injEq] at h
    simp [← h]
  | cons r rs ih =>
    simp only [mapDescs, Option.bind_eq_some, Option.map_eq_some'] at h
    rcases h with ⟨dv, hdv, t, ht, hp⟩
    rcases ih ht with ⟨hteq, hsome⟩
    constructor
    · rw [← hp, hteq]
      simp [hdv]
    · intro x hx
      rcases List.mem_cons.mp hx with hx | hx
      · rw [hx, hdv]; rfl
      · exact hsome x hx

theorem clean_data_spec {today : Date} {kota : List String} {rows : List Row}
    {messy : List (Row × String)} {clean : List Row}
    (h : clean_data today kota rows = some (messy, clean)) :
    clean = rows.filter (allValid today kota) ∧
    messy = (rows.filter fun r => !(allValid today kota r)).map
        (fun r => (r, (rowDesc today kota r).getD "")) ∧
    ∀ r ∈ rows, ∃ d, rowDesc today kota r = some d ∧
      ((d = "") ↔ allValid today kota r = true) := by
  unfold clean_data at h
  rcases Option.map_eq_some'.mp h with ⟨pairs, hpairs, hpc⟩
  have hm : pairs.filter (fun p => p.2 != "") = messy := congrArg Prod.fst hpc
  have hc : rows.filter (allValid today kota) = clean := congrArg Prod.snd hpc
  rcases mapDescs_eq hpairs with ⟨hpEq, hsome⟩
  have hthird : ∀ r ∈ rows, ∃ d, rowDesc today kota r = some d ∧
      ((d = "") ↔ allValid today kota r = true) := by
    intro r hr
    rcases Option.isSome_iff_exists.mp (hsome r hr) with ⟨d, hd⟩
    exact ⟨d, hd, rowDesc_empty_iff hd⟩
  refine ⟨hc.symm, ?_, hthird⟩
  rw [← hm, hpEq, filter_map_comm]
  rw [filter_congr_mem (q := fun r => !(allValid today kota r))]
  intro r hr
  rcases hthird r hr with ⟨d, hd, hiff⟩
  rw [hd]
  cases hall : allValid today kota r
  · have hne : d ≠ "" := fun hcon => by
      have := hiff.mp hcon
      rw [hall] at this
      cases this
    simp [Option.getD, hne]
  · have heq : d = "" := hiff.mpr hall
    simp [Option.getD, heq]

theorem chFind_of_chStarts {p l : List Char} (h : chStarts p l = true) :
    chFind p l = true := by
  cases l with
  | nil => exact h
  | cons c r =>
    simp only [chFind, Bool.or_eq_true]
    exact Or.inl h

/-! Marker-presence lemmas: whenever a predicate fails on a row whose
diagnostic was computed, the diagnostic contains the marker text of that
field. -/

theorem marker_kk {today : Date} {kota : List String} {r : Row} {d : String}
    (hd : rowDesc today kota r = some d) (hv : is_valid_kk_no r.kk_no = false) :
    containsSubstr d "Invalid KK_NO" = true := by
  rcases rowDesc_parts hd with ⟨c1, c2, hdEq, h1, -⟩
  rcases h1 with ⟨ht, -⟩ | ⟨-, l4, -, hc1⟩
  · rw [hv] at ht; cases ht
  subst hdEq hc1
  unfold containsSubstr
  simp only [idBody, String.data_append, List.append_assoc]
  rw [← List.append_assoc]
  apply chFind_of_starts
  decide

theorem marker_nik {today : Date} {kota : List String} {r : Row} {d : String}
    (hd : rowDesc today kota r = some d) (hv : is_valid_nik r.nik = false) :
    containsSubstr d "Invalid NIK" = true := by
  rcases rowDesc_parts hd with ⟨c1, c2, hdEq, -, h2⟩
  rcases h2 with ⟨ht, -⟩ | ⟨-, l4, -, hc2⟩
  · rw [hv] at ht; cases ht
  subst hdEq hc2
  unfold containsSubstr
  simp only [idBody, String.data_append, List.append_assoc]
  apply chFind_append_left
  rw [← List.append_assoc]
  apply chFind_of_starts
  decide

theorem marker_custname {today : Date} {kota : List String} {r : Row} {d : String}
    (hd : rowDesc today kota r = some d) (hv : is_valid_custname r.custname = false) :
    containsSubstr d "Invalid CUSTNAME" = true := by
  rcases rowDesc_parts hd with ⟨c1, c2, hdEq, -, -⟩
  subst hdEq
  unfold containsSubstr
  simp only [hv, Bool.false_eq_true, if_false, custnameClause,
    String.data_append, List.append_assoc]
  apply chFind_append_left
  apply chFind_append_left
  apply chFind_of_chStarts
  apply chStarts_append
  decide

theorem marker_jenis {today : Date} {kota : List String} {r : Row} {d : String}
    (hd : rowDesc today kota r = some d)
    (hv : is_valid_jenis_kelamin r.jenis_kelamin = false) :
    containsSubstr d "Invalid JENIS_KELAMIN" = true := by
  rcases rowDesc_parts hd with ⟨c1, c2, hdEq, -, -⟩
  subst hdEq
  unfold containsSubstr
  simp only [hv, Bool.false_eq_true, if_false, jenisClause,
    String.data_append, List.append_assoc]
  apply chFind_append_left
  apply chFind_append_left
  apply chFind_append_left
  apply chFind_of_chStarts
  apply chStarts_append
  decide

theorem marker_tempat {today : Date} {kota : List String} {r : Row} {d : String}
    (hd : rowDesc today kota r = some d)
    (hv : is_valid_tempat_lahir kota r.tempat_lahir = false) :
    containsSubstr d "Invalid TEMPAT_LAHIR" = true := by
  rcases rowDesc_parts hd with ⟨c1, c2, hdEq, -, -⟩
  subst hdEq
  unfold containsSubstr
  simp only [hv, Bool.false_eq_true, if_false, tempatClause,
    String.data_append, List.append_assoc]
  apply chFind_append_left
  apply chFind_append_left
  apply chFind_append_left
  apply chFind_append_left
  apply chFind_of_chStarts
  apply chStarts_append
  decide

theorem marker_tanggal {today : Date} {kota : List String} {r : Row} {d : String}
    (hd : rowDesc today kota r = some d)
    (hv : is_valid_date today r.tanggal_lahir = false) :
    containsSubstr d "Invalid TANGGAL_LAHIR" = true := by
  rcases rowDesc_parts hd with ⟨c1, c2, hdEq, -, -⟩
  subst hdEq
  unfold containsSubstr
  simp only [hv, Bool.false_eq_true, if_false, tanggalClause,
    String.data_append, List.append_assoc]
  apply chFind_append_left
  apply chFind_append_left
  apply chFind_append_left
  apply chFind_append_left
  apply chFind_append_left
  apply chFind_of_chStarts
  apply chStarts_append
  decide

theorem chStarts_refl (p : List Char) : chStarts p p = true := by
  induction p with
  | nil => rfl
  | cons a as ih => simp [chStarts, ih]

/-- When the KK predicate fails on a string cell, the diagnostic reports
the observed length, the all-digit flag and the trailing-four slice. -/
theorem id_facts_kk {today : Date} {kota : List String} {r : Row} {d : String}
    (hd : rowDesc today kota r = some d) (hv : is_valid_kk_no r.kk_no = false) :
    ∃ l4, pySliceLast4 r.kk_no = some l4 ∧
      containsSubstr d ("length: " ++ toString (pyStr r.kk_no).length) = true ∧
      containsSubstr d ("digits only: " ++ pyBoolStr (pyIsdigit (pyStr r.kk_no))) = true ∧
      containsSubstr d ("last_digits: " ++ l4) = true := by
  rcases rowDesc_parts hd with ⟨c1, c2, hdEq, h1, -⟩
  rcases h1 with ⟨ht, -⟩ | ⟨-, l4, hs, hc1⟩
  · rw [hv] at ht; cases ht
  subst hdEq hc1
  refine ⟨l4, hs, ?_, ?_, ?_⟩
  · unfold containsSubstr
    simp only [idBody, String.data_append, List.append_assoc]
    apply chFind_append_left
    apply chFind_append_left
    apply chFind_append_left
    rw [← List.append_assoc]
    apply chFind_of_starts
    exact chStarts_refl _
  · unfold containsSubstr
    simp only [idBody, String.data_append, List.append_assoc]
    apply chFind_append_left
    apply chFind_append_left
    apply chFind_append_left
    apply chFind_append_left
    apply chFind_append_left
    apply chFind_append_left
    rw [← List.append_assoc]
    apply chFind_of_starts
    exact chStarts_refl _
  · unfold containsSubstr
    simp only [idBody, String.data_append, List.append_assoc]
    apply chFind_append_left
    apply chFind_append_left
    apply chFind_append_left
    apply chFind_append_left
    apply chFind_append_left
    apply chFind_append_left
    apply chFind_append_left
    apply chFind_append_left
    apply chFind_append_left
    rw [← List.append_assoc]
    apply chFind_of_starts
    exact chStarts_refl _

/-- When the NIK predicate fails on a string cell, the diagnostic reports
the observed length, the all-digit flag and the trailing-four slice. -/
theorem id_facts_nik {today : Date} {kota : List String} {r : Row} {d : String}
    (hd : rowDesc today kota r = some d) (hv : is_valid_nik r.nik = false) :
    ∃ l4, pySliceLast4 r.nik = some l4 ∧
      containsSubstr d ("length: " ++ toString (pyStr r.nik).length) = true ∧
      containsSubstr d ("digits only: " ++ pyBoolStr (pyIsdigit (pyStr r.nik))) = true ∧
      containsSubstr d ("last_digits: " ++ l4) = true := by
  rcases rowDesc_parts hd with ⟨c1, c2, hdEq, -, h2⟩
  rcases h2 with ⟨ht, -⟩ | ⟨-, l4, hs, hc2⟩
  · rw [hv] at ht; cases ht
  subst hdEq hc2
  refine ⟨l4, hs, ?_, ?_, ?_⟩
  · unfold containsSubstr
    simp only [idBody, String.data_append, List.append_assoc]
    apply chFind_append_left
    apply chFind_append_left
    apply chFind_append_left
    apply chFind_append_left
    rw [← List.append_assoc]
    apply chFind_of_starts
    exact chStarts_refl _
  · unfold containsSubstr
    simp only [idBody, String.data_append, List.append_assoc]
    apply chFind_append_left
    apply chFind_append_left
    apply chFind_append_left
    apply chFind_append_left
    apply chFind_append_left
    apply chFind_append_left
    apply chFind_append_left
    rw [← List.append_assoc]
    apply chFind_of_starts
    exact chStarts_refl _
  · unfold containsSubstr
    simp only [idBody, String.data_append, List.append_assoc]
    apply chFind_append_left
    apply chFind_append_left
    apply chFind_append_left
    apply chFind_append_left
    apply chFind_append_left
    apply chFind_append_left
    apply chFind_append_left
    apply chFind_append_left
    apply chFind_append_left
    apply chFind_append_left
    rw [← List.append_assoc]
    apply chFind_of_starts
    exact chStarts_refl _

/-- A row whose identifier cells are strings never raises while its
diagnostic is computed. -/
theorem rowDesc_isSome {today : Date} {kota : List String} {r : Row}
    (hk : ∃ s, r.kk_no = Value.str s) (hn : ∃ s, r.nik = Value.str s) :
    (rowDesc today kota r).isSome = true := by
  obtain ⟨s1, h1⟩ := hk
  obtain ⟨s2, h2⟩ := hn
  unfold rowDesc
  cases hkk : is_valid_kk_no r.kk_no <;> cases hnik : is_valid_nik r.nik <;>
    simp [idClause, h1, h2, pySliceLast4]

theorem mapDescs_isSome {today : Date} {kota : List String} {rows : List Row}
    (h : ∀ r ∈ rows, (rowDesc today kota r).isSome = true) :
    (mapDescs today kota rows).isSome = true := by
  induction rows with
  | nil => rfl
  | cons r rs ih =>
    rcases Option.isSome_iff_exists.mp (h r (by simp)) with ⟨d, hd⟩
    rcases Option.isSome_iff_exists.mp (ih fun x hx => h x (by simp [hx])) with ⟨t, ht⟩
    simp [mapDescs, hd, ht]

/-! Concrete fixtures used by witnesses and counterexamples. -/

/-- A fixed evaluation date. -/
def today0 : Date := ⟨2024, 6, 15⟩

/-- A small reference city list. -/
def kota0 : List String := ["JAKARTA"]

/-- A row passing all six predicates against today0 and kota0. -/
def goodRow : Row :=
  ⟨.str "1234567890123456", .str "1234567890123457", .str "Budi Santoso",
   .str "LAKI-LAKI", .str "Jakarta", .str "01/01/2000"⟩

/-- goodRow with an invalid gender value. -/
def badRow : Row := { goodRow with jenis_kelamin := .str "MALE" }

/-- goodRow with a non-string KK cell. -/
def intRow : Row := { goodRow with kk_no := .int 123 }

/-- goodRow with a birth place whose text embeds the NIK marker. -/
def trapRow : Row := { goodRow with tempat_lahir := .str "Invalid NIK" }

/-- goodRow with a short non-numeric KK string. -/
def shortRow : Row := { goodRow with kk_no := .str "ab" }

/-! Claim theorems. -/

/-- C1: when clean_data returns, every row is placed in exactly one of
the two outputs: the clean output is exactly the rows on which all six
predicates pass, the messy output consists of exactly the remaining
rows, clean rows have an empty diagnostic and messy rows a nonempty one,
and the clean and messy counts sum to the total row count. -/
theorem C1_partition (today : Date) (kota : List String) (rows : List Row)
    (messy : List (Row × String)) (clean : List Row)
    (h : clean_data today kota rows = some (messy, clean)) :
    clean = rows.filter (allValid today kota) ∧
    messy.map Prod.fst = rows.filter (fun r => !(allValid today kota r)) ∧
    (∀ p ∈ messy, p.2 ≠ "") ∧
    (∀ r ∈ clean, rowDesc today kota r = some "") ∧
    clean.length + messy.length = rows.length := by
  rcases clean_data_spec h with ⟨hclean, hmessy, hall⟩
  refine ⟨hclean, ?_, ?_, ?_, ?_⟩
  · rw [hmessy, List.map_map]
    have hid : (Prod.fst ∘ fun r => (r, (rowDesc today kota r).getD "")) = id := rfl
    rw [hid, List.map_id]
  · intro p hp
    rw [hmessy] at hp
    rcases List.mem_map.mp hp with ⟨r, hr, hpr⟩
    rcases List.mem_filter.mp hr with ⟨hrr, hfail⟩
    rcases hall r hrr with ⟨d, hd, hiff⟩
    have hgd : p.2 = d := by rw [← hpr]; simp [hd]
    rw [hgd]
    intro hcon
    have := hiff.mp hcon
    rw [this] at hfail
    cases hfail
  · intro r hr
    rw [hclean] at hr
    rcases List.mem_filter.mp hr with ⟨hrr, hvalid⟩
    rcases hall r hrr with ⟨d, hd, hiff⟩
    rw [hd, hiff.mpr hvalid]
  · rw [hclean, hmessy, List.length_map]
    exact filter_length_partition rows _

/-- Witness for C1 at a concrete two-row batch with one clean and one
messy row. -/
theorem C1_partition_witness :
    clean_data today0 kota0 [goodRow, badRow] =
      some ([(badRow, "Invalid JENIS_KELAMIN (value: MALE); ")], [goodRow]) ∧
    ([goodRow] = [goodRow, badRow].filter (allValid today0 kota0) ∧
     [(badRow, "Invalid JENIS_KELAMIN (value: MALE); ")].map Prod.fst =
       [goodRow, badRow].filter (fun r => !(allValid today0 kota0 r)) ∧
     (∀ p ∈ [(badRow, "Invalid JENIS_KELAMIN (value: MALE); ")], p.2 ≠ "") ∧
     (∀ r ∈ [goodRow], rowDesc today0 kota0 r = some "") ∧
     [goodRow].length + [(badRow, "Invalid JENIS_KELAMIN (value: MALE); ")].length =
       [goodRow, badRow].length) :=
  ⟨by decide, C1_partition today0 kota0 [goodRow, badRow] _ _ (by decide)⟩

/-- C10: clean_data preserves row contents: the messy output is exactly
the failing input rows, each unchanged in its six fields and extended
with only the computed diagnostic, and the clean output is exactly the
passing input rows themselves, with no diagnostic attached. -/
theorem C10_frame (today : Date) (kota : List String) (rows : List Row)
    (messy : List (Row × String)) (clean : List Row)
    (h : clean_data today kota rows = some (messy, clean)) :
    messy = (rows.filter fun r => !(allValid today kota r)).map
        (fun r => (r, (rowDesc today kota r).getD "")) ∧
    clean = rows.filter (allValid today kota) := by
  rcases clean_data_spec h with ⟨hclean, hmessy, -⟩
  exact ⟨hmessy, hclean⟩

/-- Witness for C10 at a concrete batch with one clean row and one messy
row failing the KK predicate. -/
theorem C10_frame_witness :
    clean_data today0 kota0 [goodRow, shortRow] =
      some ([(shortRow,
        "Invalid KK_NO (length: 2, digits only: False, last_digits: ab); ")],
        [goodRow]) ∧
    ([(shortRow,
        "Invalid KK_NO (length: 2, digits only: False, last_digits: ab); ")] =
      ([goodRow, shortRow].filter fun r => !(allValid today0 kota0 r)).map
        (fun r => (r, (rowDesc today0 kota0 r).getD "")) ∧
     [goodRow] = [goodRow, shortRow].filter (allValid today0 kota0)) :=
  ⟨by decide, C10_frame today0 kota0 [goodRow, shortRow] _ _ (by decide)⟩

/-- Boolean negation elimination helper. -/
theorem bnot_true {b : Bool} (h : (!b) = true) : b = false := by
  cases b
  · rfl
  · cases h

/-- C8 counterexample: a messy row whose birth-place text embeds the
words Invalid NIK makes the substring count for the NIK marker exceed
the number of messy rows on which the NIK predicate fails: the only
messy row has a valid NIK, yet the NIK marker count is 1. -/
theorem C8_counterexample :
    clean_data today0 kota0 [trapRow] =
      some ([(trapRow, "Invalid TEMPAT_LAHIR (value: Invalid NIK); ")], []) ∧
    invalid_nik [(trapRow, "Invalid TEMPAT_LAHIR (value: Invalid NIK); ")] = 1 ∧
    is_valid_nik trapRow.nik = true ∧
    ([(trapRow, "Invalid TEMPAT_LAHIR (value: Invalid NIK); ")].filter
      (fun p => !(is_valid_nik p.1.nik))).length = 0 := by
  refine ⟨by decide, by decide, by decide, by decide⟩

/-- C8 amended: each per-field count is the substring count of the
marker over the messy diagnostics, and it is at least - not always
exactly - the number of messy rows on which that field predicate fails;
a field value that itself embeds a marker can inflate it. -/
theorem C8_marker_counts (today : Date) (kota : List String) (rows : List Row)
    (messy : List (Row × String)) (clean : List Row)
    (h : clean_data today kota rows = some (messy, clean)) :
    invalid_kk messy = (messy.filter fun p => containsSubstr p.2 "Invalid KK_NO").length ∧
    (messy.filter fun p => !(is_valid_kk_no p.1.kk_no)).length ≤ invalid_kk messy ∧
    (messy.filter fun p => !(is_valid_nik p.1.nik)).length ≤ invalid_nik messy ∧
    (messy.filter fun p => !(is_valid_custname p.1.custname)).length ≤ invalid_name messy ∧
    (messy.filter fun p => !(is_valid_jenis_kelamin p.1.jenis_kelamin)).length ≤
      invalid_gender messy ∧
    (messy.filter fun p => !(is_valid_tempat_lahir kota p.1.tempat_lahir)).length ≤
      invalid_places messy ∧
    (messy.filter fun p => !(is_valid_date today p.1.tanggal_lahir)).length ≤
      invalid_date messy := by
  rcases clean_data_spec h with ⟨-, hmessy, hall⟩
  have hdesc : ∀ p ∈ messy, rowDesc today kota p.1 = some p.2 := by
    intro p hp
    rw [hmessy] at hp
    rcases List.mem_map.mp hp with ⟨r, hr, hpr⟩
    rcases hall r (List.mem_of_mem_filter hr) with ⟨d, hd, -⟩
    rw [← hpr]
    simp [hd]
  refine ⟨rfl, ?_, ?_, ?_, ?_, ?_, ?_⟩
  · refine count_mono messy _ _ fun p hp hf => ?_
    exact marker_kk (hdesc p hp) (bnot_true hf)
  · refine count_mono messy _ _ fun p hp hf => ?_
    exact marker_nik (hdesc p hp) (bnot_true hf)
  · refine count_mono messy _ _ fun p hp hf => ?_
    exact marker_custname (hdesc p hp) (bnot_true hf)
  · refine count_mono messy _ _ fun p hp hf => ?_
    exact marker_jenis (hdesc p hp) (bnot_true hf)
  · refine count_mono messy _ _ fun p hp hf => ?_
    exact marker_tempat (hdesc p hp) (bnot_true hf)
  · refine count_mono messy _ _ fun p hp hf => ?_
    exact marker_tanggal (hdesc p hp) (bnot_true hf)

/-- Witness for the amended C8 theorem at a concrete batch. -/
theorem C8_marker_counts_witness :
    clean_data today0 kota0 [goodRow, badRow] =
      some ([(badRow, "Invalid JENIS_KELAMIN (value: MALE); ")], [goodRow]) ∧
    (invalid_kk [(badRow, "Invalid JENIS_KELAMIN (value: MALE); ")] =
      ([(badRow, "Invalid JENIS_KELAMIN (value: MALE); ")].filter
        fun p => containsSubstr p.2 "Invalid KK_NO").length ∧
     ([(badRow, "Invalid JENIS_KELAMIN (value: MALE); ")].filter
        fun p => !(is_valid_kk_no p.1.kk_no)).length ≤
      invalid_kk [(badRow, "Invalid JENIS_KELAMIN (value: MALE); ")] ∧
     ([(badRow, "Invalid JENIS_KELAMIN (value: MALE); ")].filter
        fun p => !(is_valid_nik p.1.nik)).length ≤
      invalid_nik [(badRow, "Invalid JENIS_KELAMIN (value: MALE); ")] ∧
     ([(badRow, "Invalid JENIS_KELAMIN (value: MALE); ")].filter
        fun p => !(is_valid_custname p.1.custname)).length ≤
      invalid_name [(badRow, "Invalid JENIS_KELAMIN (value: MALE); ")] ∧
     ([(badRow, "Invalid JENIS_KELAMIN (value: MALE); ")].filter
        fun p => !(is_valid_jenis_kelamin p.1.jenis_kelamin)).length ≤
      invalid_gender [(badRow, "Invalid JENIS_KELAMIN (value: MALE); ")] ∧
     ([(badRow, "Invalid JENIS_KELAMIN (value: MALE); ")].filter
        fun p => !(is_valid_tempat_lahir kota0 p.1.tempat_lahir)).length ≤
      invalid_places [(badRow, "Invalid JENIS_KELAMIN (value: MALE); ")] ∧
     ([(badRow, "Invalid JENIS_KELAMIN (value: MALE); ")].filter
        fun p => !(is_valid_date today0 p.1.tanggal_lahir)).length ≤
      invalid_date [(badRow, "Invalid JENIS_KELAMIN (value: MALE); ")]) :=
  ⟨by decide, C8_marker_counts today0 kota0 [goodRow, badRow]
    [(badRow, "Invalid JENIS_KELAMIN (value: MALE); ")] [goodRow] (by decide)⟩

/-- C4 counterexample: a record whose KK cell is a Python int makes the
diagnostic lambda slice a non-string, so clean_data raises a TypeError
(modelled none) instead of absorbing the violation. -/
theorem C4_counterexample : clean_data today0 kota0 [intRow] = none := by decide

/-- C4 amended: for batches whose KK and NIK cells are all strings - of
any length and content - clean_data never raises, and a failing KK or
NIK always has its observed length, all-digit flag and trailing-four
slice reported in the diagnostic. -/
theorem C4_no_raise (today : Date) (kota : List String) (rows : List Row)
    (h : ∀ r ∈ rows, (∃ s, r.kk_no = Value.str s) ∧ (∃ s, r.nik = Value.str s)) :
    (clean_data today kota rows).isSome = true ∧
    (∀ r ∈ rows, ∀ d, rowDesc today kota r = some d →
      (is_valid_kk_no r.kk_no = false →
        containsSubstr d ("length: " ++ toString (pyStr r.kk_no).length) = true ∧
        containsSubstr d ("digits only: " ++ pyBoolStr (pyIsdigit (pyStr r.kk_no))) = true ∧
        ∃ l4, pySliceLast4 r.kk_no = some l4 ∧
          containsSubstr d ("last_digits: " ++ l4) = true) ∧
      (is_valid_nik r.nik = false →
        containsSubstr d ("length: " ++ toString (pyStr r.nik).length) = true ∧
        containsSubstr d ("digits only: " ++ pyBoolStr (pyIsdigit (pyStr r.nik))) = true ∧
        ∃ l4, pySliceLast4 r.nik = some l4 ∧
          containsSubstr d ("last_digits: " ++ l4) = true)) := by
  constructor
  · have hsome : (mapDescs today kota rows).isSome = true :=
      mapDescs_isSome fun r hr => rowDesc_isSome (h r hr).1 (h r hr).2
    rcases Option.isSome_iff_exists.mp hsome with ⟨t, ht⟩
    simp [clean_data, ht]
  · intro r hr d hd
    constructor
    · intro hv
      rcases id_facts_kk hd hv with ⟨l4, hs, hl, hdig, hlast⟩
      exact ⟨hl, hdig, l4, hs, hlast⟩
    · intro hv
      rcases id_facts_nik hd hv with ⟨l4, hs, hl, hdig, hlast⟩
      exact ⟨hl, hdig, l4, hs, hlast⟩

/-- Witness for the amended C4 theorem at a batch whose KK cell is a
short non-numeric string. -/
theorem C4_no_raise_witness :
    (∀ r ∈ [shortRow], (∃ s, r.kk_no = Value.str s) ∧ (∃ s, r.nik = Value.str s)) ∧
    ((clean_data today0 kota0 [shortRow]).isSome = true ∧
     (∀ r ∈ [shortRow], ∀ d, rowDesc today0 kota0 r = some d →
       (is_valid_kk_no r.kk_no = false →
         containsSubstr d ("length: " ++ toString (pyStr r.kk_no).length) = true ∧
         containsSubstr d ("digits only: " ++ pyBoolStr (pyIsdigit (pyStr r.kk_no))) = true ∧
         ∃ l4, pySliceLast4 r.kk_no = some l4 ∧
           containsSubstr d ("last_digits: " ++ l4) = true) ∧
       (is_valid_nik r.nik = false →
         containsSubstr d ("length: " ++ toString (pyStr r.nik).length) = true ∧
         containsSubstr d ("digits only: " ++ pyBoolStr (pyIsdigit (pyStr r.nik))) = true ∧
         ∃ l4, pySliceLast4 r.nik = some l4 ∧
           containsSubstr d ("last_digits: " ++ l4) = true))) := by
  have hp : ∀ r ∈ [shortRow], (∃ s, r.kk_no = Value.str s) ∧ (∃ s, r.nik = Value.str s) := by
    intro r hr
    rcases List.mem_singleton.mp hr with rfl
    exact ⟨⟨"ab", rfl⟩, ⟨"1234567890123457", rfl⟩⟩
  exact ⟨hp, C4_no_raise today0 kota0 [shortRow] hp⟩

/-- C2: the KK and NIK predicates are the identical function; a value
passes iff it is of string type, consists only of decimal digits, has
length exactly 16 and its trailing four characters are not 0000; the
cited probe values behave as stated. -/
theorem C2_kk_nik_rule (v : Value) :
    is_valid_kk_no v = is_valid_nik v ∧
    (∀ s, is_valid_kk_no (Value.str s) = true ↔
      (s.data.all Char.isDigit = true ∧ s.length = 16 ∧ pyTakeLast 4 s ≠ "0000")) ∧
    (∀ n, is_valid_kk_no (Value.int n) = false) ∧
    (∀ d, is_valid_kk_no (Value.ts d) = false) ∧
    is_valid_kk_no Value.nan = false ∧
    is_valid_kk_no (Value.str "1234567890123456") = true ∧
    is_valid_kk_no (Value.str "123456789012345") = false ∧
    is_valid_kk_no (Value.str "1234567890120000") = false ∧
    is_valid_kk_no (Value.str "12345678901234a6") = false := by
  refine ⟨?_, ?_, fun n => rfl, fun d => rfl, rfl, by decide, by decide, by decide, by decide⟩
  · cases v <;> rfl
  · intro s
    simp only [is_valid_kk_no, Bool.and_eq_true, bne_iff_ne, beq_iff_eq, pyIsdigit]
    constructor
    · rintro ⟨⟨⟨-, hall⟩, hlen⟩, hlast⟩
      exact ⟨hall, hlen, hlast⟩
    · rintro ⟨hall, hlen, hlast⟩
      refine ⟨⟨⟨?_, hall⟩, hlen⟩, hlast⟩
      cases hemp : s.data.isEmpty
      · rfl
      · exfalso
        have hnil : s.data = [] := List.isEmpty_iff.mp hemp
        have hlen' : s.data.length = 16 := hlen
        rw [hnil] at hlen'
        cases hlen'

/-- C9: the name predicate passes a value iff it is a string containing
no digit character; punctuation is accepted, so Budi Santoso and OBrien
with an apostrophe pass while Budi123 fails. -/
theorem C9_name_rule :
    (∀ s, is_valid_custname (Value.str s) = true ↔ ∀ c ∈ s.data, c.isDigit = false) ∧
    (∀ n, is_valid_custname (Value.int n) = false) ∧
    (∀ d, is_valid_custname (Value.ts d) = false) ∧
    is_valid_custname Value.nan = false ∧
    is_valid_custname (Value.str "Budi Santoso") = true ∧
    is_valid_custname (Value.str "Budi123") = false ∧
    is_valid_custname (Value.str (String.mk ['O', Char.ofNat 39, 'B', 'r', 'i', 'e', 'n'])) =
      true := by
  refine ⟨?_, fun n => rfl, fun d => rfl, rfl, by decide, by decide, by decide⟩
  intro s
  constructor
  · intro h c hc
    cases hdig : c.isDigit
    · rfl
    · exfalso
      have hany : s.data.any Char.isDigit = true := List.any_eq_true.mpr ⟨c, hc, hdig⟩
      simp only [is_valid_custname, hany] at h
      cases h
  · intro h
    cases hany : s.data.any Char.isDigit
    · simp only [is_valid_custname, hany]
      rfl
    · exfalso
      rcases List.any_eq_true.mp hany with ⟨c, hc, hdig⟩
      rw [h c hc] at hdig
      cases hdig

/-- C6: the birth-date predicate passes a value iff it is a string that
strptime %d/%m/%Y parses to a real calendar date, or an
already-structured timestamp, in either case at most the current date;
a string equal to today passes, strictly future dates fail, parse
failures such as ISO format fail, and other types fail. -/
theorem C6_birthdate_rule (today : Date) (v : Value) :
    (is_valid_date today v = true ↔
      (∃ s d, v = Value.str s ∧ strptimeDMY s = some d ∧ dateLe d today = true) ∨
      (∃ d, v = Value.ts d ∧ dateLe d today = true)) ∧
    is_valid_date today0 (Value.str "01/01/2000") = true ∧
    is_valid_date today0 (Value.str "15/06/2024") = true ∧
    is_valid_date today0 (Value.str "16/06/2024") = false ∧
    is_valid_date today0 (Value.str "2000-01-01") = false ∧
    is_valid_date today0 (Value.str "31/02/2020") = false ∧
    is_valid_date today0 (Value.str "29/02/2020") = true ∧
    is_valid_date today0 (Value.int 20000101) = false ∧
    is_valid_date today0 Value.nan = false ∧
    is_valid_date today0 (Value.ts ⟨2024, 6, 15⟩) = true ∧
    is_valid_date today0 (Value.ts ⟨2024, 6, 16⟩) = false := by
  refine ⟨?_, by decide, by decide, by decide, by decide, by decide, by decide,
    by decide, by decide, by decide, by decide⟩
  cases v with
  | str s =>
    cases hp : strptimeDMY s with
    | none => simp [is_valid_date, hp]
    | some d => simp [is_valid_date, hp]
  | int n => simp [is_valid_date]
  | ts d => simp [is_valid_date]
  | nan => simp [is_valid_date]

/-- C5 counterexample: the two loader paths do not apply the claimed
uniform normalization.  The unlabeled-list path keeps the Kota prefix -
so the birth place JAKARTA fails against a set built from Kota Jakarta -
while the CITY_DESC path removes every occurrence of a prefix rather
than the first only, does not trim surrounding whitespace, and yields a
list that keeps duplicates rather than a set. -/
theorem C5_counterexample :
    kota_from_first_column ["Kota Jakarta", "Kabupaten Bandung"] =
      ["KOTA JAKARTA", "KABUPATEN BANDUNG"] ∧
    is_valid_tempat_lahir (kota_from_first_column ["Kota Jakarta", "Kabupaten Bandung"])
      (Value.str "JAKARTA") = false ∧
    kota_from_city_desc ["Kota Kota Jakarta"] = ["JAKARTA"] ∧
    kota_from_city_desc [" Jakarta "] = [" JAKARTA "] ∧
    kota_from_city_desc ["Jakarta", "Jakarta"] = ["JAKARTA", "JAKARTA"] :=
  ⟨by decide, by decide, by decide, by decide, by decide⟩

/-- C5 amended: each loader path normalizes its own way - a CITY_DESC
entry has every occurrence of the three prefixes removed and is
upper-cased without trimming, an unlabeled first-column entry is trimmed
and upper-cased without prefix removal - and the result is a list that
keeps duplicates, with set-like membership semantics.  From the
CITY_DESC raw list with Kota Jakarta and Kabupaten Bandung, the birth
places JAKARTA and BANDUNG in any letter case pass the birth-place
predicate and Surabaya fails. -/
theorem C5_amended (v : Value) :
    kota_from_city_desc ["Kota Jakarta", "Kabupaten Bandung"] = ["JAKARTA", "BANDUNG"] ∧
    (is_valid_tempat_lahir (kota_from_city_desc ["Kota Jakarta", "Kabupaten Bandung"]) v =
        true ↔
      ∃ s, v = Value.str s ∧ (pyUpper s = "JAKARTA" ∨ pyUpper s = "BANDUNG")) ∧
    is_valid_tempat_lahir (kota_from_city_desc ["Kota Jakarta", "Kabupaten Bandung"])
      (Value.str "jakarta") = true ∧
    is_valid_tempat_lahir (kota_from_city_desc ["Kota Jakarta", "Kabupaten Bandung"])
      (Value.str "Bandung") = true ∧
    is_valid_tempat_lahir (kota_from_city_desc ["Kota Jakarta", "Kabupaten Bandung"])
      (Value.str "Surabaya") = false ∧
    kota_from_first_column ["  Kota Jakarta  "] = ["KOTA JAKARTA"] := by
  have hset : kota_from_city_desc ["Kota Jakarta", "Kabupaten Bandung"] =
      ["JAKARTA", "BANDUNG"] := by decide
  refine ⟨hset, ?_, by decide, by decide, by decide, by decide⟩
  rw [hset]
  cases v with
  | str s =>
    simp only [is_valid_tempat_lahir, List.contains, List.elem_eq_mem, decide_eq_true_eq,
      List.mem_cons, List.mem_singleton, List.not_mem_nil, or_false]
    constructor
    · intro h
      exact ⟨s, rfl, h⟩
    · rintro ⟨t, ht, h⟩
      injection ht with ht'
      rw [ht']
      exact h
  | int n => simp [is_valid_tempat_lahir]
  | ts d => simp [is_valid_tempat_lahir]
  | nan => simp [is_valid_tempat_lahir]

/-- Ten messy rows whose diagnostics carry five KK markers, five NIK
markers and five CUSTNAME markers, so the six per-field counts sum to
fifteen. -/
def messy10 : List (Row × String) :=
  List.replicate 5 (badRow, "Invalid KK_NO x; ") ++
  List.replicate 5 (badRow, "Invalid NIK x; Invalid CUSTNAME y; ")

/-- C7: the summarizer computes the invalid-parameter total as messy
count times six, messy_invalid as the sum of the six per-field counts,
and clean_invalid as the difference; at a concrete ten-row messy set
whose per-field counts sum to fifteen this gives 60 and 45. -/
theorem C7_aggregation (messy : List (Row × String)) :
    total_invalid messy = messy.length * 6 ∧
    messy_invalid messy = invalid_kk messy + invalid_nik messy + invalid_name messy +
      invalid_gender messy + invalid_places messy + invalid_date messy ∧
    clean_invalid messy = (total_invalid messy : Int) - (messy_invalid messy : Int) ∧
    messy10.length = 10 ∧
    total_invalid messy10 = 60 ∧
    messy_invalid messy10 = 15 ∧
    clean_invalid messy10 = 45 :=
  ⟨rfl, rfl, rfl, by decide, by decide, by decide, by decide⟩

/-- C3: the summary percentages divide unconditionally, so a batch with
zero messy rows (whose invalid-parameter total is zero) and a batch with
zero total rows both make the computation raise ZeroDivisionError,
modelled none, instead of reporting zero percent. -/
theorem C3_zero_division_fault :
    summary_percentages [] [goodRow] 1 = none ∧
    summary_percentages [] [] 0 = none := by
  constructor <;>
    simp [summary_percentages, pyDiv, total_invalid, len_param, num_cols,
      clean_invalid, messy_invalid, invalid_kk, invalid_nik, invalid_name,
      invalid_gender, invalid_places, invalid_date, countMarker]

end DataKK
